import Mathlib

/-!
Shallow embedding of the pricing engine of the NL Jewellers calculator
(a React/TypeScript app with a gold calculator and two silver calculator
variants).  The embedded code is:

* the field validator `validate` (Calculator.tsx / SilverCalculator files),
* the per-percent sweep body and the integer sweep loop of
  `calculateAndSelect`,
* the post-sweep selection rule (`find` by percent, else first, else null),
* the replay helper `calculateTotalFromParams`,
* the saved-calculation store operations `handleSave` (prepend then
  `slice(0, 9)`) and `deleteCalculation` (filter by id).

Modelling conventions: JavaScript numbers are modelled as exact rationals;
`NaN` (the result of `parseFloat`/`parseInt` on unparsable text) is modelled
as `Option.none`, and the JS comparison semantics `NaN <= x = false`,
`NaN < x = false`, `NaN > x = false` are reproduced by the `j*` helpers
below.  `parseFloatJS`/`parseIntJS` model the JavaScript parsers on the
decimal literals this app's numeric inputs produce: an optional sign,
decimal digits (for `parseFloat` also an optional fractional part), any
trailing characters ignored, and no leading digits at all giving `NaN`.
-/

/-- A JavaScript number that may be `NaN`: `none` models `NaN`, `some q`
models the finite value `q` (idealised as an exact rational). -/
def JSV : Type := Option ℚ

instance : DecidableEq JSV := by
  unfold JSV
  infer_instance

/-- Decimal digit test, `'0'` through `'9'`. -/
def isDigitCh (c : Char) : Bool := 48 ≤ c.toNat && c.toNat ≤ 57

/-- Value of a decimal digit character. -/
def digToNat (c : Char) : Nat := c.toNat - 48

/-- Natural number denoted by a list of decimal digit characters. -/
def natOfDigits (ds : List Char) : Nat := ds.foldl (fun a c => 10 * a + digToNat c) 0

/-- Model of JavaScript `parseInt(s, 10)` on this app's inputs: optional
sign, then leading decimal digits (everything after them ignored); no
leading digits means `NaN`, modelled as `none`. -/
def parseIntJS (s : String) : Option ℤ :=
  let cs := s.toList
  let sign : ℤ := match cs with
    | '-' :: _ => -1
    | _ => 1
  let rest : List Char := match cs with
    | '-' :: r => r
    | '+' :: r => r
    | r => r
  let ds := rest.takeWhile isDigitCh
  if ds.isEmpty then none
  else some (sign * (natOfDigits ds : ℤ))

/-- Model of JavaScript `parseFloat(s)` on this app's inputs: optional
sign, decimal digits, optional `'.'` followed by fractional digits
(everything after them ignored); no digits at all means `NaN`, modelled as
`none`. -/
def parseFloatJS (s : String) : JSV :=
  let cs := s.toList
  let sign : ℚ := match cs with
    | '-' :: _ => -1
    | _ => 1
  let rest : List Char := match cs with
    | '-' :: r => r
    | '+' :: r => r
    | r => r
  let intDs := rest.takeWhile isDigitCh
  let rest2 := rest.drop intDs.length
  let fracDs : List Char := match rest2 with
    | '.' :: r => r.takeWhile isDigitCh
    | _ => []
  if intDs.isEmpty && fracDs.isEmpty then none
  else some (sign * ((natOfDigits intDs : ℚ) + (natOfDigits fracDs : ℚ) / (10 ^ fracDs.length)))

/-- JS multiplication with `NaN` propagation. -/
def jmul (a b : JSV) : JSV :=
  match a, b with
  | some x, some y => some (x * y)
  | _, _ => none

/-- JS addition with `NaN` propagation. -/
def jadd (a b : JSV) : JSV :=
  match a, b with
  | some x, some y => some (x + y)
  | _, _ => none

/-- JS strict comparison `a > b`; any comparison against `NaN` is `false`. -/
def jgt (a b : JSV) : Bool :=
  match a, b with
  | some x, some y => decide (y < x)
  | _, _ => false

/-- JS comparison `a <= b`; any comparison against `NaN` is `false`. -/
def jle (a b : JSV) : Bool :=
  match a, b with
  | some x, some y => decide (x ≤ y)
  | _, _ => false

/-- JS comparison `a < b` on parsed integers; comparison against `NaN` is
`false`. -/
def jltInt (a b : Option ℤ) : Bool :=
  match a, b with
  | some x, some y => decide (x < y)
  | _, _ => false

/-- JS comparison `a > b` on parsed integers; comparison against `NaN` is
`false`. -/
def jgtInt (a b : Option ℤ) : Bool :=
  match a, b with
  | some x, some y => decide (y < x)
  | _, _ => false

/-- JS division, used in the sweep body only behind the `rate > 0` guard.
JavaScript would give an infinity on a zero divisor; that case is
unreachable behind the guard and is modelled as `none`. -/
def jdiv (a b : JSV) : JSV :=
  match a, b with
  | some x, some y => if y = 0 then none else some (x / y)
  | _, _ => none

/-- One entry of the sweep output (`ResultDetail` in the source), with the
source's field order. -/
structure ResultDetail where
  percent : ℤ
  wastageValue : JSV
  purityValue : JSV
  total : JSV
  wastageInGrams : JSV
deriving DecidableEq

/-- The field-error record the validator builds (`newErrors` in the
source): one optional message per input field. -/
structure ValidationErrors where
  priceMsg : Option String
  weightMsg : Option String
  minMsg : Option String
  maxMsg : Option String
deriving DecidableEq

/-- Validity as the source computes it: `Object.keys(newErrors).length === 0`. -/
def ValidationErrors.isValid (e : ValidationErrors) : Bool :=
  e.priceMsg.isNone && e.weightMsg.isNone && e.minMsg.isNone && e.maxMsg.isNone

/-- The `validate` callback, identical in all three calculator variants up
to field names.  `!s` on a JS string is true exactly for the empty string,
and comparisons against `NaN` are false, which the `j*` helpers reproduce. -/
def validate (price weight minP maxP : String) : ValidationErrors :=
  let priceMsg := if price = "" || jle (parseFloatJS price) (some 0) then some "Invalid price" else none
  let weightMsg := if weight = "" || jle (parseFloatJS weight) (some 0) then some "Invalid weight" else none
  let minMsg := if minP = "" || jltInt (parseIntJS minP) (some 0) then some "Invalid %" else none
  let maxMsg0 := if maxP = "" || jltInt (parseIntJS maxP) (some 0) then some "Invalid %" else none
  let maxMsg := if jgtInt (parseIntJS minP) (parseIntJS maxP) then some "Max must be >= min" else maxMsg0
  ⟨priceMsg, weightMsg, minMsg, maxMsg⟩

/-- The body of the sweep loop of `calculateAndSelect` for one integer
percent `i`, translated line by line from the source. -/
def resultAt (price weight : JSV) (purityDecimal : ℚ) (i : ℤ) : ResultDetail :=
  let wastagePercentDecimal : JSV := some ((i : ℚ) / 100)
  let purityValue := jmul (jmul weight (some purityDecimal)) price
  let wastageValue := jmul (jmul weight wastagePercentDecimal) price
  let total := jadd purityValue wastageValue
  let rateOfAlloyed := jmul price (some purityDecimal)
  let wastageInGrams := if jgt rateOfAlloyed (some 0) then jdiv wastageValue rateOfAlloyed else some 0
  { percent := i, wastageValue := wastageValue, purityValue := purityValue,
    total := total, wastageInGrams := wastageInGrams }

/-- The sweep loop `for (let i = min; i <= max; i++)` of
`calculateAndSelect`.  A `NaN` bound (`none`) gives zero iterations, as the
JS loop condition is then false from the start. -/
def sweepResults (price weight : JSV) (purityDecimal : ℚ) (lo hi : Option ℤ) : List ResultDetail :=
  match lo, hi with
  | some a, some b => (List.range (b + 1 - a).toNat).map (fun (k : ℕ) => resultAt price weight purityDecimal (a + (k : ℤ)))
  | _, _ => []

/-- The post-sweep selection of `calculateAndSelect`:
`newResults.find(r => r.percent === selectedPercent) || newResults[0] || null`
when a target percent was passed, else `newResults[0] || null`. -/
def selectResult (target : Option ℤ) (rs : List ResultDetail) : Option ResultDetail :=
  match target with
  | some t =>
    match rs.find? (fun r => r.percent == t) with
    | some r => some r
    | none => rs.head?
  | none => rs.head?

/-- The outcome of one `calculateAndSelect` run: the `results` list and the
`selectedResult` state it sets. -/
structure CalcOutcome where
  results : List ResultDetail
  selected : Option ResultDetail
deriving DecidableEq

/-- The whole `calculateAndSelect` callback, generic in the purity constant
the variant plugs in: on failed validation it clears both states; otherwise
it parses the fields, runs the sweep and applies the selection rule. -/
def calculateAndSelect (price weight minP maxP : String) (purityDecimal : ℚ)
    (target : Option ℤ) : CalcOutcome :=
  if (validate price weight minP maxP).isValid then
    let rs := sweepResults (parseFloatJS price) (parseFloatJS weight) purityDecimal
      (parseIntJS minP) (parseIntJS maxP)
    ⟨rs, selectResult target rs⟩
  else ⟨[], none⟩

/-- Gold purity selector, `'916' | '750'` in the source. -/
inductive GoldPurity
  | p916
  | p750
deriving DecidableEq

/-- Gold purity fraction: `purity === '916' ? 0.92 : 0.75`. -/
def goldPurityDecimal : GoldPurity → ℚ
  | .p916 => 92 / 100
  | .p750 => 75 / 100

/-- Silver purity selector, `'925' | '999'` in the source. -/
inductive SilverPurity
  | p925
  | p999
deriving DecidableEq

/-- Silver purity fraction as the silver replay helpers and the selectable
silver sweep compute it: `purity === '925' ? 0.925 : 0.999`. -/
def silverPurityDecimal : SilverPurity → ℚ
  | .p925 => 925 / 1000
  | .p999 => 999 / 1000

/-- The `calculateAndSelect` of the gold calculator. -/
def goldCalculateAndSelect (price weight : String) (purity : GoldPurity)
    (minP maxP : String) (target : Option ℤ) : CalcOutcome :=
  calculateAndSelect price weight minP maxP (goldPurityDecimal purity) target

/-- The `calculateAndSelect` of the fixed-999 silver calculator, whose
sweep hard-codes `purityDecimal = 1.0` (commented `Pure Silver 100%` in the
source). -/
def silver999CalculateAndSelect (price weight minP maxP : String)
    (target : Option ℤ) : CalcOutcome :=
  calculateAndSelect price weight minP maxP 1 target

/-- A saved gold calculation (`CalculationParams` in the source): the raw
text fields plus the optionally saved selected percent. -/
structure CalculationParams where
  id : String
  goldPrice : String
  goldWeight : String
  purity : GoldPurity
  minPercent : String
  maxPercent : String
  selectedPercent : Option ℤ
deriving DecidableEq

/-- A saved silver calculation (`SilverCalculationParams` in the source). -/
structure SilverCalculationParams where
  id : String
  silverPrice : String
  silverWeight : String
  purity : SilverPurity
  minPercent : String
  maxPercent : String
  selectedPercent : Option ℤ
deriving DecidableEq

/-- The gold replay helper `calculateTotalFromParams`: parse the saved
text fields, use the saved selected percent when present (else the parsed
min percent), and apply the single-percent pricing formula. -/
def calculateTotalFromParams (q : CalculationParams) : JSV :=
  let price := parseFloatJS q.goldPrice
  let weight := parseFloatJS q.goldWeight
  let purityDecimal := goldPurityDecimal q.purity
  let percent : Option ℤ := match q.selectedPercent with
    | some sp => some sp
    | none => parseIntJS q.minPercent
  let wastagePercentDecimal : JSV := percent.map (fun i => (i : ℚ) / 100)
  let purityValue := jmul (jmul weight (some purityDecimal)) price
  let wastageValue := jmul (jmul weight wastagePercentDecimal) price
  jadd purityValue wastageValue

/-- The silver replay helper `calculateTotalFromParams` used by both
silver variants, including the fixed-999 one: its purity fraction is
`purity === '925' ? 0.925 : 0.999`. -/
def silverCalculateTotalFromParams (q : SilverCalculationParams) : JSV :=
  let price := parseFloatJS q.silverPrice
  let weight := parseFloatJS q.silverWeight
  let purityDecimal := silverPurityDecimal q.purity
  let percent : Option ℤ := match q.selectedPercent with
    | some sp => some sp
    | none => parseIntJS q.minPercent
  let wastagePercentDecimal : JSV := percent.map (fun i => (i : ℚ) / 100)
  let purityValue := jmul (jmul weight (some purityDecimal)) price
  let wastageValue := jmul (jmul weight wastagePercentDecimal) price
  jadd purityValue wastageValue

/-- The save handler's store update:
`prev => [newSave, ...prev.slice(0, 9)]` — prepend, keep at most the first
nine old entries. -/
def saveCalculation (q : CalculationParams) (prev : List CalculationParams) :
    List CalculationParams :=
  q :: prev.take 9

/-- The delete handler's store update:
`prev => prev.filter(c => c.id !== id)`. -/
def deleteCalculation (qid : String) (prev : List CalculationParams) :
    List CalculationParams :=
  prev.filter (fun c => c.id != qid)

/-- The saved silver quote that exposes the fixed-999 variant's
replay/sweep divergence: price 85, weight 50, range 8 to 15, selected
percent 8 (the variant always saves purity `'999'`). -/
def silverQuote999 : SilverCalculationParams :=
  { id := "1", silverPrice := "85", silverWeight := "50", purity := .p999,
    minPercent := "8", maxPercent := "15", selectedPercent := some 8 }

/-- Ten saved gold calculations with distinct ids, a sample store at full
capacity. -/
def sampleParams (n : Nat) : CalculationParams :=
  { id := toString n, goldPrice := "7200", goldWeight := "10", purity := .p916,
    minPercent := "8", maxPercent := "14", selectedPercent := none }

/-- A sample store holding exactly 10 saved calculations. -/
def sampleStore : List CalculationParams := (List.range 10).map sampleParams

lemma sweepResults_some_eq (price weight : JSV) (d : ℚ) (a b : ℤ) :
    sweepResults price weight d (some a) (some b) =
      (List.range (b + 1 - a).toNat).map (fun (k : ℕ) => resultAt price weight d (a + (k : ℤ))) := rfl

lemma resultAt_percent (price weight : JSV) (d : ℚ) (i : ℤ) :
    (resultAt price weight d i).percent = i := rfl

lemma resultAt_purityValue (p w d : ℚ) (i : ℤ) :
    (resultAt (some p) (some w) d i).purityValue = some (w * d * p) := rfl

lemma resultAt_wastageValue (p w d : ℚ) (i : ℤ) :
    (resultAt (some p) (some w) d i).wastageValue = some (w * ((i : ℚ) / 100) * p) := rfl

lemma resultAt_total (p w d : ℚ) (i : ℤ) :
    (resultAt (some p) (some w) d i).total = some (w * d * p + w * ((i : ℚ) / 100) * p) := rfl

lemma resultAt_eval_pos (p w d : ℚ) (i : ℤ) (hr : 0 < p * d) :
    resultAt (some p) (some w) d i =
      { percent := i, wastageValue := some (w * ((i : ℚ) / 100) * p),
        purityValue := some (w * d * p),
        total := some (w * d * p + w * ((i : ℚ) / 100) * p),
        wastageInGrams := some ((w * ((i : ℚ) / 100) * p) / (p * d)) } := by
  unfold resultAt
  simp [jmul, jadd, jgt, jdiv, hr, ne_of_gt hr]

lemma mem_of_head_eq_some {α : Type} {l : List α} {a : α} (h : l.head? = some a) : a ∈ l := by
  cases l with
  | nil => cases h
  | cons x xs =>
    simp only [List.head?] at h
    injection h with h
    rw [h]
    exact List.mem_cons_self a xs

lemma parseFloatJS_7200 : parseFloatJS "7200" = some 7200 := by
  have h : parseFloatJS "7200" =
      some ((1 : ℚ) * ((natOfDigits ['7', '2', '0', '0'] : ℚ) +
        (natOfDigits ([] : List Char) : ℚ) / 10 ^ ([] : List Char).length)) := rfl
  have h1 : natOfDigits ['7', '2', '0', '0'] = 7200 := by decide
  have h2 : natOfDigits ([] : List Char) = 0 := rfl
  rw [h, h1, h2]
  congr 1
  push_cast
  norm_num

lemma parseFloatJS_10 : parseFloatJS "10" = some 10 := by
  have h : parseFloatJS "10" =
      some ((1 : ℚ) * ((natOfDigits ['1', '0'] : ℚ) +
        (natOfDigits ([] : List Char) : ℚ) / 10 ^ ([] : List Char).length)) := rfl
  have h1 : natOfDigits ['1', '0'] = 10 := by decide
  have h2 : natOfDigits ([] : List Char) = 0 := rfl
  rw [h, h1, h2]
  congr 1
  push_cast
  norm_num

lemma parseFloatJS_85 : parseFloatJS "85" = some 85 := by
  have h : parseFloatJS "85" =
      some ((1 : ℚ) * ((natOfDigits ['8', '5'] : ℚ) +
        (natOfDigits ([] : List Char) : ℚ) / 10 ^ ([] : List Char).length)) := rfl
  have h1 : natOfDigits ['8', '5'] = 85 := by decide
  have h2 : natOfDigits ([] : List Char) = 0 := rfl
  rw [h, h1, h2]
  congr 1
  push_cast
  norm_num

lemma parseFloatJS_50 : parseFloatJS "50" = some 50 := by
  have h : parseFloatJS "50" =
      some ((1 : ℚ) * ((natOfDigits ['5', '0'] : ℚ) +
        (natOfDigits ([] : List Char) : ℚ) / 10 ^ ([] : List Char).length)) := rfl
  have h1 : natOfDigits ['5', '0'] = 50 := by decide
  have h2 : natOfDigits ([] : List Char) = 0 := rfl
  rw [h, h1, h2]
  congr 1
  push_cast
  norm_num

lemma validate_all_ok (p w mn mx : String) (qp qw : ℚ) (im ix : ℤ)
    (hp : parseFloatJS p = some qp) (hw : parseFloatJS w = some qw)
    (hm : parseIntJS mn = some im) (hx : parseIntJS mx = some ix)
    (hp0 : 0 < qp) (hw0 : 0 < qw) (hm0 : 0 ≤ im) (hx0 : 0 ≤ ix) (hmx : im ≤ ix)
    (hpne : p ≠ "") (hwne : w ≠ "") (hmne : mn ≠ "") (hxne : mx ≠ "") :
    validate p w mn mx = ⟨none, none, none, none⟩ := by
  have h1 : jle (some qp) (some 0) = false := by
    simp only [jle, decide_eq_false_iff_not, not_le]
    exact hp0
  have h2 : jle (some qw) (some 0) = false := by
    simp only [jle, decide_eq_false_iff_not, not_le]
    exact hw0
  have h3 : jltInt (some im) (some 0) = false := by
    simp only [jltInt, decide_eq_false_iff_not, not_lt]
    exact hm0
  have h4 : jltInt (some ix) (some 0) = false := by
    simp only [jltInt, decide_eq_false_iff_not, not_lt]
    exact hx0
  have h5 : jgtInt (some im) (some ix) = false := by
    simp only [jgtInt, decide_eq_false_iff_not, not_lt]
    exact hmx
  simp [validate, hp, hw, hm, hx, h1, h2, h3, h4, h5, hpne, hwne, hmne, hxne]


/-- C1: the replay total (`calculateTotalFromParams`) is claimed to equal
the `total` of the sweep result at the same percent in every engine
variant, including the fixed-999 silver one.  The fixed-999 silver
calculator violates this: its sweep hard-codes purity fraction 1.0 while
its replay helper uses 0.999, so the saved quote with price 85, weight 50,
range 8 to 15 and selected percent 8 replays to 4585.75 = 18343/4 while
the sweep's result at percent 8 has total 4590. -/
theorem C1_silver999_replay_diverges_from_sweep :
    silverCalculateTotalFromParams silverQuote999 = some (18343 / 4) ∧
    (∃ r ∈ (silver999CalculateAndSelect "85" "50" "8" "15" (some 8)).results,
      r.percent = 8 ∧ r.total = some 4590) ∧
    (18343 / 4 : ℚ) ≠ 4590 := by
  have h8 : parseIntJS "8" = some 8 := by decide
  have h15 : parseIntJS "15" = some 15 := by decide
  have hv : validate "85" "50" "8" "15" = ⟨none, none, none, none⟩ :=
    validate_all_ok "85" "50" "8" "15" 85 50 8 15 parseFloatJS_85 parseFloatJS_50 h8 h15
      (by norm_num) (by norm_num) (by norm_num) (by norm_num) (by norm_num)
      (by decide) (by decide) (by decide) (by decide)
  refine ⟨?_, ?_, by norm_num⟩
  · simp only [silverCalculateTotalFromParams, silverQuote999, silverPurityDecimal,
      parseFloatJS_85, parseFloatJS_50]
    simp only [Option.map_some', jmul, jadd, Option.some.injEq]
    norm_num
  · refine ⟨resultAt (some 85) (some 50) 1 (8 + ((0 : ℕ) : ℤ)), ?_, ?_, ?_⟩
    · show resultAt (some 85) (some 50) 1 (8 + ((0 : ℕ) : ℤ)) ∈
        (calculateAndSelect "85" "50" "8" "15" 1 (some 8)).results
      rw [calculateAndSelect, hv]
      simp only [ValidationErrors.isValid, Option.isNone_none, Bool.and_self, if_true,
        parseFloatJS_85, parseFloatJS_50, h8, h15]
      rw [sweepResults_some_eq]
      exact List.mem_map.mpr ⟨0, by decide, rfl⟩
    · rw [resultAt_percent]
      decide
    · rw [resultAt_total]
      push_cast
      norm_num

/-- C2: the validator is claimed to flag an invalid price exactly when the
price text does not parse to a positive real, in particular on the
non-numeric text "abc".  The code misses that case: `parseFloat("abc")` is
`NaN`, the JS comparison `NaN <= 0` is false, and "abc" is a truthy
string, so no error is recorded on any field and the input validates. -/
theorem C2_validator_accepts_unparsable_price :
    parseFloatJS "abc" = none ∧
    (validate "abc" "10" "8" "14").priceMsg = none ∧
    (validate "abc" "10" "8" "14").isValid = true := by
  have habc : parseFloatJS "abc" = none := by decide
  have h10 : parseFloatJS "10" = some 10 := parseFloatJS_10
  have h8 : parseIntJS "8" = some 8 := by decide
  have h14 : parseIntJS "14" = some 14 := by decide
  have hv : validate "abc" "10" "8" "14" = ⟨none, none, none, none⟩ := by
    have h2 : jle (some (10 : ℚ)) (some 0) = false := by
      simp only [jle, decide_eq_false_iff_not, not_le]
      norm_num
    simp [validate, habc, h10, h8, h14, h2, jle, jltInt, jgtInt]
  exact ⟨habc, by rw [hv], by rw [hv]; rfl⟩

/-- C3: on parsed integer bounds `lo ≤ hi` the sweep returns exactly
`hi - lo + 1` results, one per integer percent in `[lo, hi]` inclusive,
strictly ascending in percent. -/
theorem C3_sweep_enumerates_range (price weight : JSV) (d : ℚ) (lo hi : ℤ) (h : lo ≤ hi) :
    ((sweepResults price weight d (some lo) (some hi)).length : ℤ) = hi - lo + 1 ∧
    (∀ q : ℤ, (∃ r ∈ sweepResults price weight d (some lo) (some hi), r.percent = q) ↔
      (lo ≤ q ∧ q ≤ hi)) ∧
    (sweepResults price weight d (some lo) (some hi)).Pairwise
      (fun r s => r.percent < s.percent) := by
  refine ⟨?_, ?_, ?_⟩
  · rw [sweepResults_some_eq, List.length_map, List.length_range]
    omega
  · intro q
    constructor
    · rintro ⟨r, hr, hq⟩
      rw [sweepResults_some_eq] at hr
      obtain ⟨k, hk, rfl⟩ := List.mem_map.mp hr
      rw [List.mem_range] at hk
      rw [resultAt_percent] at hq
      omega
    · rintro ⟨h1, h2⟩
      refine ⟨resultAt price weight d q, ?_, rfl⟩
      rw [sweepResults_some_eq]
      refine List.mem_map.mpr ⟨(q - lo).toNat, List.mem_range.mpr (by omega), ?_⟩
      have hq : lo + (((q - lo).toNat : ℕ) : ℤ) = q := by omega
      rw [hq]
  · rw [sweepResults_some_eq, List.pairwise_map]
    refine List.Pairwise.imp ?_ (List.pairwise_lt_range _)
    intro x y hxy
    rw [resultAt_percent, resultAt_percent]
    omega

/-- Witness for C3 at the gold default range 8 to 14. -/
theorem C3_sweep_enumerates_range_witness :
    (8 : ℤ) ≤ 14 ∧
    (((sweepResults (some 7200) (some 10) (92 / 100) (some 8) (some 14)).length : ℤ) = 14 - 8 + 1 ∧
    (∀ q : ℤ, (∃ r ∈ sweepResults (some 7200) (some 10) (92 / 100) (some 8) (some 14),
      r.percent = q) ↔ (8 ≤ q ∧ q ≤ 14)) ∧
    (sweepResults (some 7200) (some 10) (92 / 100) (some 8) (some 14)).Pairwise
      (fun r s => r.percent < s.percent)) :=
  ⟨by decide, C3_sweep_enumerates_range (some 7200) (some 10) (92 / 100) 8 14 (by decide)⟩

lemma exists_of_mem_sweep {price weight : JSV} {d : ℚ} {lo hi : Option ℤ} {r : ResultDetail}
    (hr : r ∈ sweepResults price weight d lo hi) :
    ∃ i : ℤ, r = resultAt price weight d i := by
  cases lo with
  | none => exact absurd hr (List.not_mem_nil r)
  | some a =>
    cases hi with
    | none => exact absurd hr (List.not_mem_nil r)
    | some b =>
      rw [sweepResults_some_eq] at hr
      obtain ⟨k, -, rfl⟩ := List.mem_map.mp hr
      exact ⟨a + (k : ℤ), rfl⟩

/-- C4: every result the sweep produces on parsed inputs satisfies
`total = purityValue + wastageValue` exactly — the sweep applies no
rounding. -/
theorem C4_total_is_purity_plus_wastage (p w d : ℚ) (lo hi : Option ℤ) (r : ResultDetail)
    (hr : r ∈ sweepResults (some p) (some w) d lo hi) :
    ∃ pv wv, r.purityValue = some pv ∧ r.wastageValue = some wv ∧ r.total = some (pv + wv) := by
  obtain ⟨i, rfl⟩ := exists_of_mem_sweep hr
  exact ⟨w * d * p, w * ((i : ℚ) / 100) * p, rfl, rfl, rfl⟩

/-- Witness for C4 on the gold scenario at percent 8. -/
theorem C4_total_is_purity_plus_wastage_witness :
    resultAt (some 7200) (some 10) (92 / 100) (8 + ((0 : ℕ) : ℤ)) ∈
      sweepResults (some 7200) (some 10) (92 / 100) (some 8) (some 8) ∧
    (∃ pv wv,
      (resultAt (some 7200) (some 10) (92 / 100) (8 + ((0 : ℕ) : ℤ))).purityValue = some pv ∧
      (resultAt (some 7200) (some 10) (92 / 100) (8 + ((0 : ℕ) : ℤ))).wastageValue = some wv ∧
      (resultAt (some 7200) (some 10) (92 / 100) (8 + ((0 : ℕ) : ℤ))).total = some (pv + wv)) :=
  ⟨by rw [sweepResults_some_eq]; exact List.mem_map.mpr ⟨0, by decide, rfl⟩,
   C4_total_is_purity_plus_wastage 7200 10 (92 / 100) (some 8) (some 8) _
     (by rw [sweepResults_some_eq]; exact List.mem_map.mpr ⟨0, by decide, rfl⟩)⟩

/-- C5: within one sweep on parsed inputs, `purityValue` is the same in
every result — it is `weight * purityFraction * price`, independent of the
percent — so only the percent-dependent fields vary across results. -/
theorem C5_purity_value_constant (p w d : ℚ) (lo hi : Option ℤ) :
    (∀ r ∈ sweepResults (some p) (some w) d lo hi, r.purityValue = some (w * d * p)) ∧
    (∀ r ∈ sweepResults (some p) (some w) d lo hi,
      ∀ s ∈ sweepResults (some p) (some w) d lo hi, r.purityValue = s.purityValue) := by
  have h1 : ∀ r ∈ sweepResults (some p) (some w) d lo hi, r.purityValue = some (w * d * p) := by
    intro r hr
    obtain ⟨i, rfl⟩ := exists_of_mem_sweep hr
    rfl
  exact ⟨h1, fun r hr s hs => by rw [h1 r hr, h1 s hs]⟩

/-- Witness for C5 on the gold scenario. -/
theorem C5_purity_value_constant_witness :
    resultAt (some 7200) (some 10) (92 / 100) (8 + ((0 : ℕ) : ℤ)) ∈
      sweepResults (some 7200) (some 10) (92 / 100) (some 8) (some 14) ∧
    (resultAt (some 7200) (some 10) (92 / 100) (8 + ((0 : ℕ) : ℤ))).purityValue =
      some (10 * (92 / 100) * 7200) :=
  ⟨by rw [sweepResults_some_eq]; exact List.mem_map.mpr ⟨0, by decide, rfl⟩,
   (C5_purity_value_constant 7200 10 (92 / 100) (some 8) (some 14)).1 _
     (by rw [sweepResults_some_eq]; exact List.mem_map.mpr ⟨0, by decide, rfl⟩)⟩

/-- C6: in every sweep result, for validated input or not, the
wastage-in-grams field follows the guarded formula: when the effective
rate `price * purityFraction` is greater than zero it is
`wastageValue / rate`, and otherwise (including a `NaN` rate) it is
exactly 0 — no division by zero ever happens. -/
theorem C6_wastage_grams_guard (price weight : JSV) (d : ℚ) (lo hi : Option ℤ)
    (r : ResultDetail) (hr : r ∈ sweepResults price weight d lo hi) :
    (jgt (jmul price (some d)) (some 0) = true →
      r.wastageInGrams = jdiv r.wastageValue (jmul price (some d))) ∧
    (jgt (jmul price (some d)) (some 0) = false → r.wastageInGrams = some 0) := by
  obtain ⟨i, rfl⟩ := exists_of_mem_sweep hr
  have hdef : (resultAt price weight d i).wastageInGrams =
      if jgt (jmul price (some d)) (some 0) then
        jdiv ((resultAt price weight d i).wastageValue) (jmul price (some d))
      else some 0 := rfl
  constructor
  · intro hg
    rw [hdef, hg]
    simp
  · intro hg
    rw [hdef, hg]
    simp

/-- Witness for C6 with a `NaN` price (unvalidated input): the guard falls
back to 0. -/
theorem C6_wastage_grams_guard_witness :
    resultAt none (some 50) 1 (8 + ((0 : ℕ) : ℤ)) ∈
      sweepResults none (some 50) 1 (some 8) (some 8) ∧
    ((jgt (jmul none (some 1)) (some 0) = true →
      (resultAt none (some 50) 1 (8 + ((0 : ℕ) : ℤ))).wastageInGrams =
        jdiv (resultAt none (some 50) 1 (8 + ((0 : ℕ) : ℤ))).wastageValue (jmul none (some 1))) ∧
    (jgt (jmul none (some 1)) (some 0) = false →
      (resultAt none (some 50) 1 (8 + ((0 : ℕ) : ℤ))).wastageInGrams = some 0)) :=
  ⟨by rw [sweepResults_some_eq]; exact List.mem_map.mpr ⟨0, by decide, rfl⟩,
   C6_wastage_grams_guard none (some 50) 1 (some 8) (some 8) _
     (by rw [sweepResults_some_eq]; exact List.mem_map.mpr ⟨0, by decide, rfl⟩)⟩

/-- C7: the saved-quotes store never exceeds 10 entries: a save prepends
the new quote at index 0, keeps at most the first nine old entries (so a
save onto a full store of 10 evicts exactly the oldest, last entry), and a
delete can only shrink the store, so both operations preserve the bound. -/
theorem C7_store_capacity_invariant (q : CalculationParams) (l : List CalculationParams)
    (h : l.length ≤ 10) :
    (saveCalculation q l).length ≤ 10 ∧
    (saveCalculation q l).head? = some q ∧
    (l.length = 10 → saveCalculation q l = q :: l.dropLast) ∧
    (∀ s, (deleteCalculation s l).length ≤ 10) := by
  refine ⟨?_, rfl, ?_, ?_⟩
  · show (q :: l.take 9).length ≤ 10
    rw [List.length_cons, List.length_take]
    omega
  · intro h10
    show q :: l.take 9 = q :: l.dropLast
    rw [List.dropLast_eq_take, h10]
  · intro s
    exact le_trans (List.length_filter_le _ l) h

/-- Witness for C7 on a full store of 10 sample quotes. -/
theorem C7_store_capacity_invariant_witness :
    sampleStore.length ≤ 10 ∧
    ((saveCalculation (sampleParams 10) sampleStore).length ≤ 10 ∧
    (saveCalculation (sampleParams 10) sampleStore).head? = some (sampleParams 10) ∧
    (sampleStore.length = 10 →
      saveCalculation (sampleParams 10) sampleStore = sampleParams 10 :: sampleStore.dropLast) ∧
    (∀ s, (deleteCalculation s sampleStore).length ≤ 10)) :=
  ⟨by decide, C7_store_capacity_invariant (sampleParams 10) sampleStore (by decide)⟩

/-- C8: after a sweep run with an explicit target percent, the selection
is a result carrying exactly the target percent when one exists; when no
result has the target percent it falls back to the first result; and on an
empty sweep the selection is none. -/
theorem C8_selection_by_target_percent (price weight : JSV) (d : ℚ) (lo hi : Option ℤ) (t : ℤ) :
    ((∃ r ∈ sweepResults price weight d lo hi, r.percent = t) →
      ∃ r, selectResult (some t) (sweepResults price weight d lo hi) = some r ∧ r.percent = t) ∧
    ((∀ r ∈ sweepResults price weight d lo hi, r.percent ≠ t) →
      selectResult (some t) (sweepResults price weight d lo hi) =
        (sweepResults price weight d lo hi).head?) ∧
    (sweepResults price weight d lo hi = [] →
      selectResult (some t) (sweepResults price weight d lo hi) = none) := by
  refine ⟨?_, ?_, ?_⟩
  · rintro ⟨r, hr, ht⟩
    cases hfind : (sweepResults price weight d lo hi).find? (fun s => s.percent == t) with
    | none =>
      exact absurd (by simpa using ht) (by simpa using List.find?_eq_none.mp hfind r hr)
    | some r' =>
      refine ⟨r', ?_, by simpa using List.find?_some hfind⟩
      show (match (sweepResults price weight d lo hi).find? (fun s => s.percent == t) with
        | some s => some s
        | none => (sweepResults price weight d lo hi).head?) = some r'
      rw [hfind]
  · intro hnone
    cases hfind : (sweepResults price weight d lo hi).find? (fun s => s.percent == t) with
    | none =>
      show (match (sweepResults price weight d lo hi).find? (fun s => s.percent == t) with
        | some s => some s
        | none => (sweepResults price weight d lo hi).head?) =
        (sweepResults price weight d lo hi).head?
      rw [hfind]
    | some r' =>
      have hm := List.mem_of_find?_eq_some hfind
      have hp : r'.percent = t := by simpa using List.find?_some hfind
      exact absurd hp (hnone r' hm)
  · intro he
    rw [he]
    rfl

/-- Witness for C8 on the gold scenario with target percent 9. -/
theorem C8_selection_by_target_percent_witness :
    ((∃ r ∈ sweepResults (some 7200) (some 10) (92 / 100) (some 8) (some 14), r.percent = 9) →
      ∃ r, selectResult (some 9) (sweepResults (some 7200) (some 10) (92 / 100) (some 8) (some 14)) =
        some r ∧ r.percent = 9) ∧
    ((∀ r ∈ sweepResults (some 7200) (some 10) (92 / 100) (some 8) (some 14), r.percent ≠ 9) →
      selectResult (some 9) (sweepResults (some 7200) (some 10) (92 / 100) (some 8) (some 14)) =
        (sweepResults (some 7200) (some 10) (92 / 100) (some 8) (some 14)).head?) ∧
    (sweepResults (some 7200) (some 10) (92 / 100) (some 8) (some 14) = [] →
      selectResult (some 9) (sweepResults (some 7200) (some 10) (92 / 100) (some 8) (some 14)) =
        none) :=
  C8_selection_by_target_percent (some 7200) (some 10) (92 / 100) (some 8) (some 14) 9

lemma selectResult_mem {rs : List ResultDetail} {t : Option ℤ} {r : ResultDetail}
    (h : selectResult t rs = some r) : r ∈ rs := by
  cases t with
  | none => exact mem_of_head_eq_some h
  | some tv =>
    cases hfind : rs.find? (fun s => s.percent == tv) with
    | some s =>
      have he : selectResult (some tv) rs = some s := by
        show (match rs.find? (fun s => s.percent == tv) with
          | some s => some s
          | none => rs.head?) = some s
        rw [hfind]
      rw [he] at h
      injection h with h
      rw [← h]
      exact List.mem_of_find?_eq_some hfind
    | none =>
      have he : selectResult (some tv) rs = rs.head? := by
        show (match rs.find? (fun s => s.percent == tv) with
          | some s => some s
          | none => rs.head?) = rs.head?
        rw [hfind]
      rw [he] at h
      exact mem_of_head_eq_some h

/-- C9: the gold engine on price 7200, weight 10, purity 916 (fraction
0.92) and range 8 to 14 produces 7 results, and the result at percent 8
has purityValue 66240, wastageValue 5760, total 72000 and wastageInGrams
5760 / (7200 * 0.92). -/
theorem C9_gold_concrete_scenario :
    (goldCalculateAndSelect "7200" "10" GoldPurity.p916 "8" "14" none).results.length = 7 ∧
    (goldCalculateAndSelect "7200" "10" GoldPurity.p916 "8" "14" none).results.head? =
      some { percent := 8, wastageValue := some 5760, purityValue := some 66240,
             total := some 72000,
             wastageInGrams := some (5760 / (7200 * (92 / 100))) } := by
  have h8 : parseIntJS "8" = some 8 := by decide
  have h14 : parseIntJS "14" = some 14 := by decide
  have hv : validate "7200" "10" "8" "14" = ⟨none, none, none, none⟩ :=
    validate_all_ok "7200" "10" "8" "14" 7200 10 8 14 parseFloatJS_7200 parseFloatJS_10 h8 h14
      (by norm_num) (by norm_num) (by norm_num) (by norm_num) (by norm_num)
      (by decide) (by decide) (by decide) (by decide)
  have hres : (goldCalculateAndSelect "7200" "10" GoldPurity.p916 "8" "14" none).results =
      sweepResults (some 7200) (some 10) (92 / 100) (some 8) (some 14) := by
    show (calculateAndSelect "7200" "10" "8" "14" (goldPurityDecimal GoldPurity.p916)
      none).results = _
    rw [calculateAndSelect, hv]
    simp only [ValidationErrors.isValid, Option.isNone_none, Bool.and_self, if_true,
      parseFloatJS_7200, parseFloatJS_10, h8, h14, goldPurityDecimal]
  constructor
  · rw [hres, sweepResults_some_eq, List.length_map, List.length_range]
    decide
  · rw [hres, sweepResults_some_eq]
    have hrange : List.range (((14 : ℤ) + 1 - 8).toNat) = 0 :: [1, 2, 3, 4, 5, 6] := by decide
    rw [hrange, List.map_cons, List.head?_cons]
    rw [show ((8 : ℤ) + ((0 : ℕ) : ℤ)) = (8 : ℤ) by decide]
    rw [resultAt_eval_pos 7200 10 (92 / 100) 8 (by norm_num)]
    simp only [Option.some.injEq, ResultDetail.mk.injEq]
    norm_num

/-- C10: on parsed inputs with positive price and weight, totals are
strictly increasing along the sweep, the first result is the minimum
(every result's total exceeds the first's by a non-negative margin, the
displayed profit), and any selected result is an element of the sweep. -/
theorem C10_total_strictly_increasing (p w d : ℚ) (lo hi : ℤ) (hp : 0 < p) (hw : 0 < w) :
    (sweepResults (some p) (some w) d (some lo) (some hi)).Pairwise
      (fun r s => ∃ x y, r.total = some x ∧ s.total = some y ∧ x < y) ∧
    (∀ f, (sweepResults (some p) (some w) d (some lo) (some hi)).head? = some f →
      ∀ r ∈ sweepResults (some p) (some w) d (some lo) (some hi),
        ∃ ft rt, f.total = some ft ∧ r.total = some rt ∧ 0 ≤ rt - ft) ∧
    (∀ t r, selectResult t (sweepResults (some p) (some w) d (some lo) (some hi)) = some r →
      r ∈ sweepResults (some p) (some w) d (some lo) (some hi)) := by
  have key : ∀ i j : ℤ, i < j →
      w * d * p + w * ((i : ℚ) / 100) * p < w * d * p + w * ((j : ℚ) / 100) * p := by
    intro i j hij
    have hij' : (i : ℚ) < (j : ℚ) := by exact_mod_cast hij
    have h2 : (i : ℚ) / 100 < (j : ℚ) / 100 := by linarith
    have h3 : w * ((i : ℚ) / 100) < w * ((j : ℚ) / 100) := mul_lt_mul_of_pos_left h2 hw
    have h4 : w * ((i : ℚ) / 100) * p < w * ((j : ℚ) / 100) * p :=
      mul_lt_mul_of_pos_right h3 hp
    linarith
  refine ⟨?_, ?_, fun t r h => selectResult_mem h⟩
  · rw [sweepResults_some_eq, List.pairwise_map]
    refine List.Pairwise.imp ?_ (List.pairwise_lt_range _)
    intro x y hxy
    exact ⟨_, _, resultAt_total p w d _, resultAt_total p w d _,
      key (lo + (x : ℤ)) (lo + (y : ℤ)) (by omega)⟩
  · intro f hf r hr
    rcases hn : ((hi + 1 - lo).toNat) with _ | m
    · rw [sweepResults_some_eq, hn] at hf
      simp at hf
    · rw [sweepResults_some_eq, hn, List.range_succ_eq_map, List.map_cons,
        List.head?_cons] at hf
      injection hf with hf
      rw [sweepResults_some_eq] at hr
      obtain ⟨k, -, rfl⟩ := List.mem_map.mp hr
      refine ⟨w * d * p + w * (((lo + ((0 : ℕ) : ℤ) : ℤ) : ℚ) / 100) * p,
        w * d * p + w * (((lo + (k : ℤ) : ℤ) : ℚ) / 100) * p, ?_,
        resultAt_total p w d _, ?_⟩
      · rw [← hf]
        exact resultAt_total p w d _
      · have hcast : ((lo + ((0 : ℕ) : ℤ) : ℤ) : ℚ) ≤ ((lo + (k : ℤ) : ℤ) : ℚ) := by
          exact_mod_cast (by omega : lo + ((0 : ℕ) : ℤ) ≤ lo + (k : ℤ))
        have h2 : ((lo + ((0 : ℕ) : ℤ) : ℤ) : ℚ) / 100 ≤ ((lo + (k : ℤ) : ℤ) : ℚ) / 100 := by
          gcongr
        have h3 := mul_le_mul_of_nonneg_left h2 (le_of_lt hw)
        have h4 := mul_le_mul_of_nonneg_right h3 (le_of_lt hp)
        linarith

/-- Witness for C10 on the gold scenario. -/
theorem C10_total_strictly_increasing_witness :
    (0 : ℚ) < 7200 ∧ (0 : ℚ) < 10 ∧
    ((sweepResults (some 7200) (some 10) (92 / 100) (some 8) (some 14)).Pairwise
      (fun r s => ∃ x y, r.total = some x ∧ s.total = some y ∧ x < y) ∧
    (∀ f, (sweepResults (some 7200) (some 10) (92 / 100) (some 8) (some 14)).head? = some f →
      ∀ r ∈ sweepResults (some 7200) (some 10) (92 / 100) (some 8) (some 14),
        ∃ ft rt, f.total = some ft ∧ r.total = some rt ∧ 0 ≤ rt - ft) ∧
    (∀ t r, selectResult t (sweepResults (some 7200) (some 10) (92 / 100) (some 8) (some 14)) =
        some r →
      r ∈ sweepResults (some 7200) (some 10) (92 / 100) (some 8) (some 14))) :=
  ⟨by norm_num, by norm_num,
   C10_total_strictly_increasing 7200 10 (92 / 100) 8 14 (by norm_num) (by norm_num)⟩
